import Mathlib

/-!
Shallow embedding of the goal-detail and goal-definition screens
(src/screens/GoalDetailScreen.tsx: components GoalDetailScreen and
GoalDefineScreen) together with proofs about the formatting helpers,
the effect traces of the HTTP operations, and the create-payload
construction.

JavaScript dynamic values are modelled by `JSVal`; JS number semantics
are modelled over `ℚ` (every value exercised by this program is an
exactly representable decimal).  `parseFloat`, `Number(...)` coercion,
`isNaN`, truthiness and `Number.prototype.toFixed` follow the
ECMAScript behaviour on decimal literals; string inputs using
exponent, hexadecimal or Infinity notation do not occur in this
program's data and are outside the model.
-/

namespace GoalApp

/-- A JavaScript runtime value as it can occur in a Goal JSON payload:
a finite number, NaN, a string, undefined (absent field) or a boolean. -/
inductive JSVal where
  | num (q : ℚ)
  | nan
  | str (s : String)
  | undef
  | bool (b : Bool)
deriving DecidableEq

/-- Numeric value of a list of decimal digit characters (most significant first). -/
def digitsToNat (ds : List Char) : ℕ :=
  ds.foldl (fun acc c => 10 * acc + (c.toNat - 48)) 0

/-- 10 to the power `d` (explicitly over ℕ, so it evaluates by kernel
arithmetic). -/
def pow10 (d : ℕ) : ℕ :=
  Nat.pow 10 d

/-- Negation of a rational, built through `mkRat` so it evaluates. -/
def ratNeg (q : ℚ) : ℚ :=
  mkRat (-q.num) q.den

/-- Parse an unsigned decimal literal prefix (digits, optional point, digits);
returns the value and the unconsumed rest, or `none` when no digit is present.
The value of `i.f` is `(i * 10^|f| + f) / 10^|f|`. -/
def parseUnsigned (cs : List Char) : Option (ℚ × List Char) :=
  let ip := cs.span Char.isDigit
  match ip.2 with
  | '.' :: rest2 =>
      let fp := rest2.span Char.isDigit
      if ip.1.isEmpty && fp.1.isEmpty then none
      else
        some (mkRat (digitsToNat ip.1 * pow10 fp.1.length + digitsToNat fp.1) (pow10 fp.1.length),
          fp.2)
  | _ =>
      if ip.1.isEmpty then none
      else some (mkRat (digitsToNat ip.1) 1, ip.2)

/-- Parse an optionally signed decimal literal prefix. -/
def parseSigned (cs : List Char) : Option (ℚ × List Char) :=
  match cs with
  | '-' :: rest => (parseUnsigned rest).map (fun p => (ratNeg p.1, p.2))
  | '+' :: rest => parseUnsigned rest
  | _ => parseUnsigned cs

/-- ECMAScript `parseFloat` on a string: skip leading whitespace, parse the
longest decimal-literal prefix; NaN (`none`) when no prefix parses. -/
def parseFloatString (s : String) : Option ℚ :=
  match parseSigned (s.toList.dropWhile Char.isWhitespace) with
  | some p => some p.1
  | none => none

/-- Drop whitespace from both ends of a character list. -/
def trimWs (cs : List Char) : List Char :=
  ((cs.dropWhile Char.isWhitespace).reverse.dropWhile Char.isWhitespace).reverse

/-- ECMAScript `Number(string)` coercion: trimmed empty string is 0; otherwise
the whole (trimmed) string must be a decimal literal, else NaN (`none`). -/
def numberFromString (s : String) : Option ℚ :=
  let cs := trimWs s.toList
  if cs.isEmpty then some (mkRat 0 1)
  else
    match parseSigned cs with
    | some p => if p.2.isEmpty then some p.1 else none
    | none => none

/-- ECMAScript ToNumber on a `JSVal` (`none` = NaN): numbers are themselves,
undefined is NaN, booleans are 0/1, strings go through `numberFromString`. -/
def toNumber (v : JSVal) : Option ℚ :=
  match v with
  | .num q => some q
  | .nan => none
  | .str s => numberFromString s
  | .undef => none
  | .bool b => some (if b then mkRat 1 1 else mkRat 0 1)

/-- The global JS `isNaN`: ToNumber then NaN-test. -/
def jsIsNaN (v : JSVal) : Bool :=
  (toNumber v).isNone

/-- ECMAScript `parseFloat` applied to a `JSVal`: the argument is converted
to a string first.  For finite numbers the round trip through their decimal
representation returns the number itself; NaN, undefined and booleans
stringify to words with no numeric prefix, hence NaN. -/
def jsParseFloat (v : JSVal) : Option ℚ :=
  match v with
  | .num q => some q
  | .nan => none
  | .str s => parseFloatString s
  | .undef => none
  | .bool _ => none

/-- JavaScript truthiness of a `JSVal` (0, NaN, "", undefined, false are
falsy).  A rational is zero exactly when its numerator is zero. -/
def truthy (v : JSVal) : Bool :=
  match v with
  | .num q => decide (q.num ≠ 0)
  | .nan => false
  | .str s => decide (s ≠ "")
  | .undef => false
  | .bool b => b

/-- Decimal-digit characters of a natural number, via structural fuel. -/
def natToDigitsAux (fuel : ℕ) (n : ℕ) : List Char :=
  match fuel with
  | 0 => []
  | fuel + 1 =>
      if n = 0 then []
      else natToDigitsAux fuel (n / 10) ++ [Char.ofNat (48 + n % 10)]

/-- Decimal string of a natural number. -/
def natToString (n : ℕ) : String :=
  if n = 0 then "0" else String.mk (natToDigitsAux (n + 1) n)

/-- Left-pad a string with zeros up to width `d`. -/
def padLeftZeros (s : String) (d : ℕ) : String :=
  String.mk (List.replicate (d - s.length) '0') ++ s

/-- The rounding used by `Number.prototype.toFixed`: the integer closest to
`q`, ties resolved to the larger integer; for a positive denominator this is
`floor(q + 1/2) = fdiv (2*num + den) (2*den)`. -/
def jsRoundHalf (q : ℚ) : ℤ :=
  Int.fdiv (2 * q.num + (q.den : ℤ)) (2 * (q.den : ℤ))

/-- `Number.prototype.toFixed(d)` on a finite number `q`: round `q * 10^d`
to an integer (ties up) and print with exactly `d` digits after the point. -/
def toFixed (q : ℚ) (d : ℕ) : String :=
  let n := jsRoundHalf (mkRat (q.num * (pow10 d : ℤ)) q.den)
  let m := n.natAbs
  let sign := if n < 0 then "-" else ""
  if d = 0 then sign ++ natToString m
  else sign ++ natToString (m / pow10 d) ++ "." ++ padLeftZeros (natToString (m % pow10 d)) d

/-- Smallest number of decimal places `d ≤ 39` such that `den` divides `10^d`. -/
def findDecimals (den : ℕ) : Option ℕ :=
  (List.range 40).find? (fun d => pow10 d % den = 0)

/-- ECMAScript ToString of a finite number with a terminating decimal
expansion: no point for integers, otherwise the shortest exact decimal.
(Every number arising in this program is such a decimal; the final case
is an unreachable fallback marker.) -/
def numToString (q : ℚ) : String :=
  let sign := if q.num < 0 then "-" else ""
  let m := q.num.natAbs
  match findDecimals q.den with
  | some 0 => sign ++ natToString m
  | some d =>
      let scaled := m * pow10 d / q.den
      sign ++ natToString (scaled / pow10 d) ++ "." ++ padLeftZeros (natToString (scaled % pow10 d)) d
  | none => sign ++ natToString m ++ "/" ++ natToString q.den

/-- How React Native renders a `JSVal` inside a Text element: strings as-is,
numbers via ToString, NaN as "NaN", undefined and booleans as empty text. -/
def jsDisplayString (v : JSVal) : String :=
  match v with
  | .str s => s
  | .num q => numToString q
  | .nan => "NaN"
  | .undef => ""
  | .bool _ => ""

/-- The method call `v.toFixed(d)`: defined on numbers (NaN prints "NaN");
on any other receiver JavaScript throws a TypeError, modelled as `.error`. -/
def jsToFixed (v : JSVal) (d : ℕ) : Except String String :=
  match v with
  | .num q => .ok (toFixed q d)
  | .nan => .ok "NaN"
  | _ => .error "TypeError: toFixed is not a function"

/-! ### GoalDetailScreen formatters (detail view) -/

/-- Detail view, Patrimônio (GoalDetailScreen lines 244–246):
`goalData.patrimony && !isNaN(parseFloat(goalData.patrimony))
  ? R$ + parseFloat(goalData.patrimony).toFixed(2) : "R$0.00"`. -/
def renderPatrimonyDetail (v : JSVal) : String :=
  if truthy v && (jsParseFloat v).isSome then "R$" ++ toFixed ((jsParseFloat v).getD 0) 2
  else "R$0.00"

/-- Detail view, Meu Patrimônio (GoalDetailScreen lines 253–255): same
expression as `renderPatrimonyDetail` applied to `my_patrimony`. -/
def renderMyPatrimonyDetail (v : JSVal) : String :=
  if truthy v && (jsParseFloat v).isSome then "R$" ++ toFixed ((jsParseFloat v).getD 0) 2
  else "R$0.00"

/-- Detail view, Aporte Mensal / Aporte Necessário (GoalDetailScreen lines
262–264 and 299–301): `goalData.monthly_aport && !isNaN(goalData.monthly_aport)
  ? goalData.monthly_aport.toFixed(2) : "R$0.00"` — note the value branch calls
`.toFixed` on the raw field (throws on non-number receivers) and carries no
currency prefix, while the fallback does. -/
def renderMonthlyAportDetail (v : JSVal) : Except String String :=
  if truthy v && !(toNumber v).isNone then jsToFixed v 2
  else .ok "R$0.00"

/-- Detail view, Dividendos (GoalDetailScreen lines 271–273):
`goalData.dividends && !isNaN(parseFloat(goalData.dividends))
  ? goalData.dividends : "N/A"` — the raw value is displayed. -/
def renderDividendsDetail (v : JSVal) : String :=
  if truthy v && (jsParseFloat v).isSome then jsDisplayString v
  else "N/A"

/-- Detail view, Rendimento (GoalDetailScreen lines 280–282): same shape
as `renderDividendsDetail` applied to `rate`. -/
def renderRateDetail (v : JSVal) : String :=
  if truthy v && (jsParseFloat v).isSome then jsDisplayString v
  else "N/A"

/-- GoalDetailScreen line 221: `Number(goalData.time_desired).toFixed(1)`. -/
def timeRemaining (v : JSVal) : String :=
  match toNumber v with
  | some q => toFixed q 1
  | none => "NaN"

/-- GoalDetailScreen lines 303–305: the highlighted estimated-time line
`Tempo Estimado: {timeRemaining} anos`. -/
def timeRemainingDisplay (v : JSVal) : String :=
  "Tempo Estimado: " ++ timeRemaining v ++ " anos"

/-! ### GoalDefineScreen formatters (definition-review view) -/

/-- Define view, Patrimônio Desejado (GoalDefineScreen lines 649–663):
`const patrimony = parseFloat(goalData.patrimony);
 if (isNaN(patrimony)) return "N/A"; return patrimony.toFixed(2);`. -/
def renderPatrimonyDefine (v : JSVal) : String :=
  match jsParseFloat v with
  | some q => toFixed q 2
  | none => "N/A"

/-- Define view, Meu Patrimônio (GoalDefineScreen lines 689–703): same
expression as `renderPatrimonyDefine` applied to `my_patrimony`. -/
def renderMyPatrimonyDefine (v : JSVal) : String :=
  match jsParseFloat v with
  | some q => toFixed q 2
  | none => "N/A"

/-- Define view, Dividendos (GoalDefineScreen line 676):
`isNaN(goalData.dividends) ? "N/A" : goalData.dividends.toFixed(2)` —
the value branch calls `.toFixed` directly on the raw field. -/
def renderDividendsDefine (v : JSVal) : Except String String :=
  if jsIsNaN v then .ok "N/A" else jsToFixed v 2

/-- Define view, Taxa (GoalDefineScreen line 716):
`isNaN(goalData.rate) ? "N/A" : (goalData.rate * 100).toFixed(2)` —
the multiplication coerces the field to a number, so `.toFixed` is
always applied to a number here. -/
def renderRateDefine (v : JSVal) : String :=
  match toNumber v with
  | some q => toFixed (mkRat (q.num * 100) q.den) 2
  | none => "N/A"

/-- Define view, Taxa with the static percent sign appended by the JSX
(GoalDefineScreen lines 714–718). -/
def renderRateDefineText (v : JSVal) : String :=
  renderRateDefine v ++ "%"

/-- Define view, Tempo Desejado (GoalDefineScreen lines 729–743):
`const timeDesired = parseFloat(goalData.time_desired);
 if (isNaN(timeDesired)) return "N/A"; return timeDesired.toFixed(2);`. -/
def renderTimeDesiredDefine (v : JSVal) : String :=
  match jsParseFloat v with
  | some q => toFixed q 2
  | none => "N/A"

/-- GoalDefineScreen line 600: the summary character budget. -/
def maxLength : ℕ := 250

/-- GoalDefineScreen lines 599–605, `getLimitedSummary`:
`if (summary.length > maxLength && !showFullSummary)
   return summary.substring(0, maxLength) + "...";
 return summary;` (characters modelled as a list). -/
def getLimitedSummary (summary : List Char) (showFullSummary : Bool) : List Char :=
  if summary.length > maxLength ∧ showFullSummary = false then
    summary.take maxLength ++ ['.', '.', '.']
  else summary

/-! ### Create payload (GoalDefineScreen, handleCreateGoal) -/

/-- A JavaScript object as a partial map from keys to values
(`none` = key absent). -/
def JSObj : Type := String → Option JSVal

/-- Property read `o.k`: an absent key reads as undefined. -/
def objGet (o : JSObj) (k : String) : JSVal :=
  (o k).getD JSVal.undef

/-- GoalDefineScreen lines 562–565: `const dataToSend = { ...goalData };
if (goalData.monthly_aport) { delete dataToSend.monthly_aport; }` —
the outgoing POST /api/goals body. -/
def handleCreateGoalPayload (draft : JSObj) : JSObj :=
  if truthy (objGet draft "monthly_aport") then
    fun k => if k = "monthly_aport" then none else draft k
  else draft

/-! ### Data model (interfaces Step, Planning, Goal; lines 17–51) -/

/-- Interface Step (lines 17–22). -/
structure Step where
  step : ℕ
  description : String
  actions : List String
  timeline : String
deriving DecidableEq

/-- The resource pairs of Planning (line 27). -/
structure Resource where
  description : String
  resource : String
deriving DecidableEq

/-- The current_situation field of Planning (lines 32–36). -/
structure CurrentSituation where
  expenses : Option String
  income : String
  savings : Option String
deriving DecidableEq

/-- Interface Planning (lines 24–37). -/
structure Planning where
  objective : Option String
  steps : Option (List Step)
  resources : Option (List Resource)
  savings_tips : Option (List String)
  contingency_plan : Option (List String)
  additional_income_sources : Option (List String)
  monitoring_adjustments : Option (List String)
  current_situation : Option CurrentSituation
deriving DecidableEq

/-- Interface Goal (lines 39–51).  The statically declared string/number
fields are carried as `JSVal` because the API transmits them sometimes as
strings and sometimes as numbers; id, name, status, planning and summary
keep their declared types. -/
structure Goal where
  id : String
  name : String
  patrimony : JSVal
  my_patrimony : JSVal
  monthly_aport : JSVal
  dividends : JSVal
  rate : JSVal
  status : Bool
  time_desired : JSVal
  planning : Option Planning
  summary : Option String
deriving DecidableEq

/-! ### Effect traces of the HTTP operations (GoalDetailScreen) -/

/-- One observable side effect of a screen operation: a loading-flag write,
a goal-state write, a console.error log, an Alert.alert dialog, a
navigation.navigate call, or an invocation of fetchGoalData (re-fetch). -/
inductive Event where
  | setLoading (b : Bool)
  | setGoal (g : Option Goal)
  | logError (msg : String)
  | alert (title msg : String)
  | navigate (screen : String)
  | refetch
deriving DecidableEq

/-- Outcome of the GET /api/goals/{goalId} request: an ok response whose
parsed JSON body is an array of goals, a non-ok response with a text body,
or a thrown network error. -/
inductive FetchOutcome where
  | success (goals : List Goal)
  | failure (body : String)
  | networkError (err : String)

/-- Outcome of a mutating request (DELETE, finalize, reopen): ok,
non-ok with a text body, or a thrown network error. -/
inductive MutOutcome where
  | success
  | failure (body : String)
  | networkError (err : String)

/-- fetchGoalData (lines 75–104): setLoading(true); on ok, setGoalData(data[0])
(undefined when the array is empty); on non-ok, log the body and throw, caught
below: alert then log; the finally clause always runs setLoading(false). -/
def fetchGoalData (resp : FetchOutcome) : List Event :=
  match resp with
  | .success goals =>
      [.setLoading true, .setGoal goals.head?, .setLoading false]
  | .failure body =>
      [.setLoading true, .logError body,
       .alert "Erro" "Falha ao buscar os dados da meta.",
       .logError "Error: Failed to fetch goal data", .setLoading false]
  | .networkError e =>
      [.setLoading true, .alert "Erro" "Falha ao buscar os dados da meta.",
       .logError e, .setLoading false]

/-- deleteGoal (lines 106–134): setLoading(true); on ok, navigate("Metas");
on non-ok, log the body and throw, caught below: alert then log; the finally
clause always runs setLoading(false). -/
def deleteGoal (resp : MutOutcome) : List Event :=
  match resp with
  | .success =>
      [.setLoading true, .navigate "Metas", .setLoading false]
  | .failure body =>
      [.setLoading true, .logError body,
       .alert "Erro" "Falha ao deletar a meta.",
       .logError "Error: Failed to delete goal", .setLoading false]
  | .networkError e =>
      [.setLoading true, .alert "Erro" "Falha ao deletar a meta.",
       .logError e, .setLoading false]

/-- finalizeGoal (lines 136–165): setLoading(true); on ok, fetchGoalData()
(the `.refetch` event) then the success alert; on non-ok, log the body and
throw, caught below: alert then log; finally setLoading(false). -/
def finalizeGoal (resp : MutOutcome) : List Event :=
  match resp with
  | .success =>
      [.setLoading true, .refetch,
       .alert "Sucesso" "Meta finalizada com sucesso.", .setLoading false]
  | .failure body =>
      [.setLoading true, .logError body,
       .alert "Erro" "Falha ao finalizar a meta.",
       .logError "Error: Failed to finalize goal", .setLoading false]
  | .networkError e =>
      [.setLoading true, .alert "Erro" "Falha ao finalizar a meta.",
       .logError e, .setLoading false]

/-- reopenGoal (lines 167–196): symmetric to finalizeGoal with the reopen
endpoint and messages. -/
def reopenGoal (resp : MutOutcome) : List Event :=
  match resp with
  | .success =>
      [.setLoading true, .refetch,
       .alert "Sucesso" "Meta reaberta com sucesso.", .setLoading false]
  | .failure body =>
      [.setLoading true, .logError body,
       .alert "Erro" "Falha ao reabrir a meta.",
       .logError "Error: Failed to reopen goal", .setLoading false]
  | .networkError e =>
      [.setLoading true, .alert "Erro" "Falha ao reabrir a meta.",
       .logError e, .setLoading false]

/-- Replace each `.refetch` invocation by the events of the fetch it starts
(given the outcome of that GET request). -/
def expandRefetch (fr : FetchOutcome) (evs : List Event) : List Event :=
  evs.flatMap (fun e => match e with | .refetch => fetchGoalData fr | _ => [e])

/-- A successful finalize together with its triggered re-fetch. -/
def finalizeStep (mu : MutOutcome) (fr : FetchOutcome) : List Event :=
  expandRefetch fr (finalizeGoal mu)

/-- A successful reopen together with its triggered re-fetch. -/
def reopenStep (mu : MutOutcome) (fr : FetchOutcome) : List Event :=
  expandRefetch fr (reopenGoal mu)

/-- Number of occurrences of an event in a trace. -/
def countEvent (e : Event) (evs : List Event) : ℕ :=
  (evs.filter (fun x => x = e)).length

/-- The view state of GoalDetailScreen: the goalData and loading useState
hooks (lines 69–72). -/
structure ClientState where
  goalData : Option Goal
  loading : Bool

/-- Apply one effect to the view state; logs, alerts and navigation do not
change it. -/
def applyEvent (st : ClientState) : Event → ClientState
  | .setLoading b => { st with loading := b }
  | .setGoal g => { st with goalData := g }
  | _ => st

/-- Run a trace of effects over the view state. -/
def runTrace (st : ClientState) (evs : List Event) : ClientState :=
  evs.foldl applyEvent st

/-- What GoalDetailScreen renders for a given view state. -/
inductive ScreenBody where
  | loadingView (title : String)
  | errorView (text : String)
  | goalView (g : Goal)

/-- The render guards of GoalDetailScreen (lines 206–218): the loading
indicator while loading, the static error text when goalData is missing,
otherwise the goal fields. -/
def renderScreen (st : ClientState) : ScreenBody :=
  if st.loading then .loadingView "Carregando detalhes da meta..."
  else
    match st.goalData with
    | none => .errorView "Erro ao carregar os dados do plano de ação."
    | some g => .goalView g

/-- A sample finalized goal record (used to instantiate the round-trip
statement). -/
def sampleFinalizedGoal : Goal :=
  ⟨"1", "meta", JSVal.undef, JSVal.undef, JSVal.undef, JSVal.undef, JSVal.undef,
    true, JSVal.undef, none, none⟩

/-- A sample reopened goal record (status false). -/
def sampleReopenedGoal : Goal :=
  ⟨"1", "meta", JSVal.undef, JSVal.undef, JSVal.undef, JSVal.undef, JSVal.undef,
    false, JSVal.undef, none, none⟩

/-! ## Theorems for the claims -/

/-- Claim C1: the patrimony scenarios of the claim hold ("1234.5" displays
"R$1234.50" and "abc" displays "R$0.00"), but the monthly_aport path
contradicts the claim at the number 1234.5: the code produces "1234.50"
with no currency prefix (only its fallback carries the prefix). -/
theorem C1_currency_eval :
    renderPatrimonyDetail (JSVal.str "1234.5") = "R$1234.50"
    ∧ renderPatrimonyDetail (JSVal.str "abc") = "R$0.00"
    ∧ renderMonthlyAportDetail (JSVal.num (mkRat 2469 2)) = Except.ok "1234.50"
    ∧ "1234.50" ≠ "R$1234.50" :=
  ⟨by decide, by decide, rfl, by decide⟩

/-- Claim C2: totality of the rendering paths fails.  A dividends value that
is the numeric string "12.5" passes the isNaN guard of the definition-review
view and the code then calls .toFixed on the string, which throws a
TypeError instead of degrading to a fallback; the detail view's
monthly_aport path has the same defect. -/
theorem C2_dividends_crash :
    jsIsNaN (JSVal.str "12.5") = false
    ∧ renderDividendsDefine (JSVal.str "12.5")
        = Except.error "TypeError: toFixed is not a function"
    ∧ renderMonthlyAportDetail (JSVal.str "5")
        = Except.error "TypeError: toFixed is not a function" :=
  ⟨by decide, rfl, rfl⟩

/-- Claim C3 counterexample: a draft whose monthly_aport is present with
value 0 is not stripped — the outgoing POST /api/goals payload still
carries monthly_aport = 0, refuting "omits the field ... for every draft
shape (every possible monthly_aport value ..., including zero)". -/
theorem C3_counterexample :
    handleCreateGoalPayload
        (fun k => if k = "monthly_aport" then some (JSVal.num (mkRat 0 1)) else none)
        "monthly_aport"
      = some (JSVal.num (mkRat 0 1))
    ∧ some (JSVal.num (mkRat 0 1)) ≠ (none : Option JSVal) :=
  ⟨rfl, by decide⟩

/-- Claim C3 amended: Create omits monthly_aport from the outgoing payload
exactly when the draft's monthly_aport is truthy; a present but falsy value
(0, NaN, empty string) is transmitted unchanged, and every other field is
transmitted unchanged. -/
theorem C3_amended_strip :
    ∀ draft : JSObj,
      (truthy (objGet draft "monthly_aport") = true →
        handleCreateGoalPayload draft "monthly_aport" = none)
      ∧ (truthy (objGet draft "monthly_aport") = false →
        handleCreateGoalPayload draft = draft)
      ∧ (∀ k, k ≠ "monthly_aport" → handleCreateGoalPayload draft k = draft k) := by
  intro draft
  refine ⟨fun h => ?_, fun h => ?_, fun k hk => ?_⟩
  · simp [handleCreateGoalPayload, h]
  · simp [handleCreateGoalPayload, h]
  · by_cases h : truthy (objGet draft "monthly_aport") <;>
      simp [handleCreateGoalPayload, h, hk]

/-- Witness for C3_amended_strip: a concrete draft with a truthy
monthly_aport (5) and a second field; monthly_aport is stripped and the
other field survives. -/
theorem C3_amended_witness :
    handleCreateGoalPayload
        (fun k => if k = "monthly_aport" then some (JSVal.num (mkRat 5 1)) else some (JSVal.str "x"))
        "monthly_aport" = none
    ∧ handleCreateGoalPayload
        (fun k => if k = "monthly_aport" then some (JSVal.num (mkRat 5 1)) else some (JSVal.str "x"))
        "name" = some (JSVal.str "x") :=
  ⟨(C3_amended_strip _).1 (by decide),
   (C3_amended_strip _).2.2 "name" (by decide)⟩

/-- Claim C4 counterexample: the dividends value "12abc" is non-numeric
(JS isNaN — Number coercion — yields NaN on it), yet the detail view
displays the raw string "12abc", not "N/A", because that view guards
with parseFloat, which accepts the "12" prefix. -/
theorem C4_counterexample :
    jsIsNaN (JSVal.str "12abc") = true
    ∧ renderDividendsDetail (JSVal.str "12abc") = "12abc"
    ∧ "12abc" ≠ "N/A" :=
  ⟨by decide, by decide, by decide⟩

/-- Claim C4 amended: for every rate or dividends value rejected by both
Number coercion and parseFloat (e.g. "abc", an absent field, NaN), each of
the four rendering paths produces "N/A" — never "0.00" and never the
zero-currency fallback; the definition view appends its static percent
sign to the rate expression. -/
theorem C4_amended_nonnumeric :
    ∀ v : JSVal, toNumber v = none → jsParseFloat v = none →
      renderDividendsDetail v = "N/A"
      ∧ renderRateDetail v = "N/A"
      ∧ renderDividendsDefine v = Except.ok "N/A"
      ∧ renderRateDefine v = "N/A"
      ∧ renderRateDefineText v = "N/A%" := by
  intro v h1 h2
  have hr : renderRateDefine v = "N/A" := by simp [renderRateDefine, h1]
  refine ⟨?_, ?_, ?_, hr, ?_⟩
  · simp [renderDividendsDetail, h2]
  · simp [renderRateDetail, h2]
  · simp [renderDividendsDefine, jsIsNaN, h1]
  · rw [renderRateDefineText, hr]
    decide

/-- Witness for C4_amended_nonnumeric at the non-numeric string "abc". -/
theorem C4_amended_witness :
    renderDividendsDetail (JSVal.str "abc") = "N/A"
    ∧ renderRateDefineText (JSVal.str "abc") = "N/A%" :=
  ⟨(C4_amended_nonnumeric (JSVal.str "abc") (by decide) (by decide)).1,
   (C4_amended_nonnumeric (JSVal.str "abc") (by decide) (by decide)).2.2.2.2⟩

/-- Claim C5: for a 300-character summary, the truncated display has length
exactly 253 (250 characters plus "...") when showFullSummary is false and
is the unchanged summary when it is true; summaries of length at most 250
are always returned unchanged. -/
theorem C5_summary_truncation :
    ∀ s : List Char,
      (s.length = 300 →
        (getLimitedSummary s false).length = 253 ∧ getLimitedSummary s true = s)
      ∧ (∀ b, s.length ≤ 250 → getLimitedSummary s b = s) := by
  intro s
  refine ⟨fun h => ⟨?_, ?_⟩, fun b hb => ?_⟩
  · have hgt : s.length > maxLength := by simp [maxLength, h]
    unfold getLimitedSummary
    rw [if_pos (And.intro hgt rfl)]
    rw [List.length_append, List.length_take, h]
    simp [maxLength]
  · simp [getLimitedSummary]
  · simp only [getLimitedSummary]
    rw [if_neg]
    intro hc
    have := hc.1
    simp only [maxLength] at this
    omega

/-- Witness for C5_summary_truncation at a concrete 300-character summary
and a concrete 10-character summary. -/
theorem C5_witness :
    (getLimitedSummary (List.replicate 300 'a') false).length = 253
    ∧ getLimitedSummary (List.replicate 300 'a') true = List.replicate 300 'a'
    ∧ getLimitedSummary (List.replicate 10 'b') false = List.replicate 10 'b' :=
  ⟨((C5_summary_truncation (List.replicate 300 'a')).1 (by rw [List.length_replicate])).1,
   ((C5_summary_truncation (List.replicate 300 'a')).1 (by rw [List.length_replicate])).2,
   (C5_summary_truncation (List.replicate 10 'b')).2 false (by rw [List.length_replicate]; omega)⟩

/-- Claim C6: on a non-success delete response the alert "Falha ao deletar
a meta." is raised, the response body is logged and no navigation happens;
on success the client navigates to "Metas" and never writes the local goal
state. -/
theorem C6_delete_behaviour :
    (∀ body,
      Event.alert "Erro" "Falha ao deletar a meta." ∈ deleteGoal (MutOutcome.failure body)
      ∧ Event.logError body ∈ deleteGoal (MutOutcome.failure body)
      ∧ ∀ s, Event.navigate s ∉ deleteGoal (MutOutcome.failure body))
    ∧ Event.navigate "Metas" ∈ deleteGoal MutOutcome.success
    ∧ (∀ g, Event.setGoal g ∉ deleteGoal MutOutcome.success) := by
  refine ⟨fun body => ⟨?_, ?_, fun s h => ?_⟩, ?_, fun g h => ?_⟩ <;>
    simp_all [deleteGoal]

/-- Witness for C6_delete_behaviour at a concrete non-success body. -/
theorem C6_witness :
    Event.alert "Erro" "Falha ao deletar a meta."
      ∈ deleteGoal (MutOutcome.failure "Goal not found") :=
  (C6_delete_behaviour.1 "Goal not found").1

/-- Claim C7: for every fetch outcome the trace ends by clearing the
loading flag (the finally clause); on a non-success status or a network
failure the alert "Falha ao buscar os dados da meta." is raised and the
response body (respectively the error) is logged. -/
theorem C7_fetch_cleanup :
    (∀ resp, (fetchGoalData resp).getLast? = some (Event.setLoading false))
    ∧ (∀ body,
      Event.alert "Erro" "Falha ao buscar os dados da meta."
          ∈ fetchGoalData (FetchOutcome.failure body)
      ∧ Event.logError body ∈ fetchGoalData (FetchOutcome.failure body))
    ∧ (∀ e,
      Event.alert "Erro" "Falha ao buscar os dados da meta."
          ∈ fetchGoalData (FetchOutcome.networkError e)
      ∧ Event.logError e ∈ fetchGoalData (FetchOutcome.networkError e)) := by
  refine ⟨fun resp => ?_, fun body => ⟨?_, ?_⟩, fun e => ⟨?_, ?_⟩⟩
  · cases resp <;> rfl
  all_goals simp [fetchGoalData]

/-- Witness for C7_fetch_cleanup at a concrete failure body. -/
theorem C7_witness :
    Event.alert "Erro" "Falha ao buscar os dados da meta."
      ∈ fetchGoalData (FetchOutcome.failure "Goal not found") :=
  (C7_fetch_cleanup.2.1 "Goal not found").1

/-- Claim C8: a successful finalize followed by a successful reopen leaves
the view holding exactly the goal re-fetched after the reopen, whose status
is false when the server honours the contract; each successful mutator runs
exactly one re-fetch and exactly one success alert, and neither mutator
writes the goal state itself (only the re-fetch does). -/
theorem C8_finalize_reopen :
    ∀ (st0 : ClientState) (g1 g2 : Goal), g2.status = false →
      (runTrace (runTrace st0 (finalizeStep MutOutcome.success (FetchOutcome.success [g1])))
          (reopenStep MutOutcome.success (FetchOutcome.success [g2]))).goalData = some g2
      ∧ ((runTrace (runTrace st0 (finalizeStep MutOutcome.success (FetchOutcome.success [g1])))
          (reopenStep MutOutcome.success (FetchOutcome.success [g2]))).goalData.map Goal.status
            = some false)
      ∧ countEvent Event.refetch (finalizeGoal MutOutcome.success) = 1
      ∧ countEvent (Event.alert "Sucesso" "Meta finalizada com sucesso.")
          (finalizeStep MutOutcome.success (FetchOutcome.success [g1])) = 1
      ∧ countEvent Event.refetch (reopenGoal MutOutcome.success) = 1
      ∧ countEvent (Event.alert "Sucesso" "Meta reaberta com sucesso.")
          (reopenStep MutOutcome.success (FetchOutcome.success [g2])) = 1
      ∧ (∀ g, Event.setGoal g ∉ finalizeGoal MutOutcome.success)
      ∧ (∀ g, Event.setGoal g ∉ reopenGoal MutOutcome.success) := by
  intro st0 g1 g2 h2
  have hgd :
      (runTrace (runTrace st0 (finalizeStep MutOutcome.success (FetchOutcome.success [g1])))
        (reopenStep MutOutcome.success (FetchOutcome.success [g2]))).goalData = some g2 := rfl
  refine ⟨hgd, ?_, rfl, ?_, rfl, ?_, fun g h => ?_, fun g h => ?_⟩
  · rw [hgd]
    exact congrArg some h2
  · rfl
  · rfl
  · simp [finalizeGoal] at h
  · simp [reopenGoal] at h

/-- Witness for C8_finalize_reopen at concrete goal records. -/
theorem C8_witness :
    (runTrace (runTrace (ClientState.mk none false)
        (finalizeStep MutOutcome.success (FetchOutcome.success [sampleFinalizedGoal])))
        (reopenStep MutOutcome.success (FetchOutcome.success [sampleReopenedGoal]))).goalData
      = some sampleReopenedGoal :=
  (C8_finalize_reopen (ClientState.mk none false) sampleFinalizedGoal sampleReopenedGoal rfl).1

/-- Claim C9: for time_desired = 7 the detail view highlights
"Tempo Estimado: 7.0 anos" (Number coercion then one decimal place) while
the definition-review view shows "7.00" (parseFloat then two decimal
places). -/
theorem C9_time_precision :
    timeRemainingDisplay (JSVal.num (mkRat 7 1)) = "Tempo Estimado: 7.0 anos"
    ∧ timeRemaining (JSVal.num (mkRat 7 1)) = "7.0"
    ∧ renderTimeDesiredDefine (JSVal.num (mkRat 7 1)) = "7.00" := by
  refine ⟨by decide, by decide, by decide⟩

/-- Claim C10: a 200 response whose JSON array is empty sets the goal state
to the absent first element (undefined), clears the loading flag, raises no
alert, and the screen then renders the static error text instead of goal
fields. -/
theorem C10_empty_fetch :
    ∀ st0 : ClientState,
      fetchGoalData (FetchOutcome.success [])
        = [Event.setLoading true, Event.setGoal none, Event.setLoading false]
      ∧ (runTrace st0 (fetchGoalData (FetchOutcome.success []))).goalData = none
      ∧ (runTrace st0 (fetchGoalData (FetchOutcome.success []))).loading = false
      ∧ (∀ t m, Event.alert t m ∉ fetchGoalData (FetchOutcome.success []))
      ∧ renderScreen (runTrace st0 (fetchGoalData (FetchOutcome.success [])))
          = ScreenBody.errorView "Erro ao carregar os dados do plano de ação." := by
  intro st0
  exact ⟨rfl, rfl, rfl, fun t m h => by simp [fetchGoalData] at h, rfl⟩

/-- Witness for C10_empty_fetch at a concrete initial state. -/
theorem C10_witness :
    renderScreen (runTrace (ClientState.mk none true) (fetchGoalData (FetchOutcome.success [])))
      = ScreenBody.errorView "Erro ao carregar os dados do plano de ação." :=
  (C10_empty_fetch (ClientState.mk none true)).2.2.2.2

end GoalApp
